import Mathlib

/-!
Verification development for the browser-based SEO keyword analysis tool
(`src/index.tsx`).  The development shallowly embeds the analysis pipeline:
the prompt builder `createPrompt`, the provider dispatcher `performAnalysis`,
the response interpreter of the submit handler (first-brace / last-brace
extraction followed by `JSON.parse`), the result renderer, and the setup
routine `setupApplication`.  Network responses are passed in explicitly as
values, so the dispatcher is a pure function of its inputs and of the mocked
provider responses.

JavaScript semantics that the source relies on are modelled explicitly:
`String.prototype.substring` clamps negative indices to 0 and swaps its
arguments when start exceeds end; `indexOf`/`lastIndexOf` return -1 when the
character is absent; `JSON.parse` follows the RFC 8259 grammar; property
access on `undefined`/`null` throws a TypeError while property access on
other non-objects yields `undefined`; `x || d` yields `d` exactly when `x`
is falsy.
-/

/-! ## JSON values and a model of `JSON.parse` -/

/-- A parsed JSON value.  Numbers are exact decimals `mantissa × 10⁻ˢᶜᵃˡᵉ`
(the exponent of the source text is folded in), which is faithful for every
value the pipeline inspects. -/
inductive Json where
  | null
  | bool (b : Bool)
  | num (mantissa : Int) (scale : Nat)
  | str (s : String)
  | arr (elements : List Json)
  | obj (fields : List (String × Json))

/-- JSON whitespace (RFC 8259: space, tab, line feed, carriage return). -/
def isJsonWs (c : Char) : Bool :=
  c.toNat = 32 || c.toNat = 9 || c.toNat = 10 || c.toNat = 13

/-- Drop leading JSON whitespace. -/
def skipWs : List Char → List Char
  | [] => []
  | c :: cs => if isJsonWs c then skipWs cs else c :: cs

/-- Value of a hexadecimal digit, if the character is one. -/
def hexVal (c : Char) : Option Nat :=
  let code := c.toNat
  if 48 ≤ code && code ≤ 57 then some (code - 48)
  else if 97 ≤ code && code ≤ 102 then some (code - 87)
  else if 65 ≤ code && code ≤ 70 then some (code - 55)
  else none

/-- Single-character JSON string escapes. -/
def escChar (e : Char) : Option Char :=
  let n := e.toNat
  if n = 34 || n = 47 || n = 92 then some e
  else if n = 98 then some (Char.ofNat 8)
  else if n = 102 then some (Char.ofNat 12)
  else if n = 110 then some (Char.ofNat 10)
  else if n = 114 then some (Char.ofNat 13)
  else if n = 116 then some (Char.ofNat 9)
  else none

/-- Parse the body of a JSON string (after the opening quote), returning the
decoded characters and the input after the closing quote.  Control characters
below U+0020 are rejected, as in `JSON.parse`. -/
def parseStringBody : List Char → Option (List Char × List Char)
  | [] => none
  | '"' :: rest => some ([], rest)
  | '\\' :: 'u' :: h1 :: h2 :: h3 :: h4 :: rest => do
      let a ← hexVal h1
      let b ← hexVal h2
      let c ← hexVal h3
      let d ← hexVal h4
      let (s, r) ← parseStringBody rest
      some (Char.ofNat (((a * 16 + b) * 16 + c) * 16 + d) :: s, r)
  | '\\' :: e :: rest => do
      let c ← escChar e
      let (s, r) ← parseStringBody rest
      some (c :: s, r)
  | c :: rest =>
      if c.toNat < 32 then none
      else do
        let (s, r) ← parseStringBody rest
        some (c :: s, r)

/-- Numeric value of a digit string. -/
def digitsToNat (ds : List Char) : Nat :=
  ds.foldl (fun acc d => 10 * acc + (d.toNat - 48)) 0

/-- Parse the exponent tail of a JSON number (after `e`/`E`). -/
def parseExpTail (cs : List Char) : Option (Int × List Char) :=
  let (sgn, cs1) : Int × List Char :=
    match cs with
    | '+' :: tl => (1, tl)
    | '-' :: tl => (-1, tl)
    | other => (1, other)
  let (ds, r) := cs1.span (·.isDigit)
  if ds.isEmpty then none else some (sgn * (digitsToNat ds : Int), r)

/-- Parse a JSON number per the RFC 8259 grammar (optional minus, integer part
with no leading zero, optional fraction, optional exponent). -/
def parseNumber (cs : List Char) : Option (Json × List Char) :=
  let (neg, cs1) : Bool × List Char :=
    match cs with
    | '-' :: tl => (true, tl)
    | other => (false, other)
  let intPart : Option (Nat × List Char) :=
    match cs1 with
    | '0' :: r => some (0, r)
    | c :: _ =>
        if c.isDigit then
          let (ds, r) := cs1.span (·.isDigit)
          some (digitsToNat ds, r)
        else none
    | [] => none
  match intPart with
  | none => none
  | some (ip, r1) =>
    let fracPart : Option (List Char × List Char) :=
      match r1 with
      | '.' :: r2 =>
          let (ds, r3) := r2.span (·.isDigit)
          if ds.isEmpty then none else some (ds, r3)
      | _ => some ([], r1)
    match fracPart with
    | none => none
    | some (fds, r4) =>
      let expPart : Option (Int × List Char) :=
        match r4 with
        | 'e' :: r5 => parseExpTail r5
        | 'E' :: r5 => parseExpTail r5
        | _ => some (0, r4)
      match expPart with
      | none => none
      | some (ex, r6) =>
        let mant0 : Nat := ip * 10 ^ fds.length + digitsToNat fds
        let e10 : Int := ex - (fds.length : Int)
        let (m, scale) : Nat × Nat :=
          if 0 ≤ e10 then (mant0 * 10 ^ e10.toNat, 0) else (mant0, (-e10).toNat)
        some (.num (if neg then -(m : Int) else (m : Int)) scale, r6)

mutual

/-- Parse one JSON value at the head of the input (leading whitespace already
skipped by the caller), returning the value and the remaining input. -/
def parseValue (fuel : Nat) (cs : List Char) : Option (Json × List Char) :=
  match fuel with
  | 0 => none
  | fuel' + 1 =>
    match cs with
    | [] => none
    | '\x7b' :: rest =>
        match skipWs rest with
        | '\x7d' :: r2 => some (.obj [], r2)
        | r1 =>
            match parseObjectItems fuel' r1 with
            | some (fs, r2) => some (.obj fs, r2)
            | none => none
    | '[' :: rest =>
        match skipWs rest with
        | ']' :: r2 => some (.arr [], r2)
        | r1 =>
            match parseArrayItems fuel' r1 with
            | some (vs, r2) => some (.arr vs, r2)
            | none => none
    | '"' :: rest =>
        match parseStringBody rest with
        | some (s, r) => some (.str ⟨s⟩, r)
        | none => none
    | 't' :: more =>
        match more with
        | 'r' :: 'u' :: 'e' :: rest => some (.bool true, rest)
        | _ => none
    | 'f' :: more =>
        match more with
        | 'a' :: 'l' :: 's' :: 'e' :: rest => some (.bool false, rest)
        | _ => none
    | 'n' :: more =>
        match more with
        | 'u' :: 'l' :: 'l' :: rest => some (.null, rest)
        | _ => none
    | _ => parseNumber cs

/-- Parse the comma-separated elements of a non-empty JSON array, up to and
including the closing bracket. -/
def parseArrayItems (fuel : Nat) (cs : List Char) : Option (List Json × List Char) :=
  match fuel with
  | 0 => none
  | fuel' + 1 =>
    match parseValue fuel' cs with
    | none => none
    | some (v, r1) =>
      match skipWs r1 with
      | ',' :: r3 =>
          match parseArrayItems fuel' (skipWs r3) with
          | some (vs, r4) => some (v :: vs, r4)
          | none => none
      | ']' :: r3 => some ([v], r3)
      | _ => none

/-- Parse the comma-separated members of a non-empty JSON object, up to and
including the closing brace. -/
def parseObjectItems (fuel : Nat) (cs : List Char) : Option (List (String × Json) × List Char) :=
  match fuel with
  | 0 => none
  | fuel' + 1 =>
    match cs with
    | '"' :: rest =>
        match parseStringBody rest with
        | none => none
        | some (k, r1) =>
          match skipWs r1 with
          | ':' :: r2 =>
              match parseValue fuel' (skipWs r2) with
              | none => none
              | some (v, r3) =>
                match skipWs r3 with
                | ',' :: r4 =>
                    match parseObjectItems fuel' (skipWs r4) with
                    | some (fs, r5) => some ((⟨k⟩, v) :: fs, r5)
                    | none => none
                | '\x7d' :: r4 => some ([(⟨k⟩, v)], r4)
                | _ => none
          | _ => none
    | _ => none

end

/-- Model of `JSON.parse`: parse exactly one JSON value surrounded by optional
whitespace; anything else (including trailing garbage) is a parse failure,
modelling the thrown `SyntaxError`. -/
def jsonParse (s : String) : Option Json :=
  match parseValue (s.data.length + 1) (skipWs s.data) with
  | some (v, rest) => if (skipWs rest).isEmpty then some v else none
  | none => none

/-! ## JavaScript string primitives used by the submit handler -/

/-- Model of `String.prototype.indexOf` for a single character: the first
index, or -1 when absent. -/
def jsIndexOf (s : String) (c : Char) : Int :=
  match s.data.findIdx? (· == c) with
  | some i => (i : Int)
  | none => -1

/-- Model of `String.prototype.lastIndexOf` for a single character: the last
index, or -1 when absent. -/
def jsLastIndexOf (s : String) (c : Char) : Int :=
  match s.data.reverse.findIdx? (· == c) with
  | some i => ((s.data.length - 1 - i : Nat) : Int)
  | none => -1

/-- Model of `String.prototype.substring`: both indices are clamped to
`[0, length]` and swapped when start exceeds end (ECMA-262 §22.1.3.22). -/
def jsSubstring (s : String) (start finish : Int) : String :=
  let len : Int := (s.data.length : Int)
  let a := (min (max start 0) len).toNat
  let b := (min (max finish 0) len).toNat
  ⟨(s.data.drop (min a b)).take (max a b - min a b)⟩

/-- The submit handler's response-cleaning step (src/index.tsx line 225):
`responseText.substring(responseText.indexOf(leftBrace), responseText.lastIndexOf(rightBrace) + 1)`. -/
def extractJsonString (t : String) : String :=
  jsSubstring t (jsIndexOf t '\x7b') (jsLastIndexOf t '\x7d' + 1)

/-- The interpreter applied to a raw response text: extract the brace-delimited
substring and run `JSON.parse` on it (src/index.tsx lines 225-226).  `none`
models the thrown `SyntaxError` (the `MalformedResponse` path). -/
def interpretResponse (t : String) : Option Json :=
  jsonParse (extractJsonString t)

example : extractJsonString "123\x7b" = "123" := by rfl
example : interpretResponse "123\x7b" = some (.num 123 0) := by rfl
example : interpretResponse "no braces at all" = none := by rfl
example : interpretResponse "x \x7b\"a\":[1,true,null]\x7d y" =
    some (.obj [("a", .arr [.num 1 0, .bool true, .null])]) := by rfl

/-! ## Providers, prompt construction, and the dispatcher -/

/-- The four supported AI providers (src/index.tsx line 13). -/
inductive AIProvider where
  | googleAI
  | openAI
  | mistral
  | openRouter
deriving DecidableEq, BEq

/-- The display name of a provider, as interpolated into error messages. -/
def providerName : AIProvider → String
  | .googleAI => "Google AI"
  | .openAI => "OpenAI"
  | .mistral => "Mistral"
  | .openRouter => "OpenRouter"

/-- The `searchInstruction` of `createPrompt` (src/index.tsx line 115). -/
def searchInstruction (useGoogleSearch : Bool) : String :=
  if useGoogleSearch then "using Google Search" else "based on your extensive knowledge"

/-- The `locationInstruction` of `createPrompt` (src/index.tsx line 116).
JavaScript truthiness of a string is non-emptiness. -/
def locationInstruction (country language : String) : String :=
  if country ≠ "" ∧ language ≠ "" then
    " for the target country \"" ++ country ++ "\" and language \"" ++ language ++ "\""
  else if country ≠ "" then
    " for the target country \"" ++ country ++ "\""
  else if language ≠ "" then
    " for the target language \"" ++ language ++ "\""
  else ""

/-- The prompt template of `createPrompt` (src/index.tsx lines 114-131). -/
def createPrompt (keyword country language : String) (useGoogleSearch : Bool) : String :=
  "\n      You are an expert SEO analyst. Analyze the keyword \"" ++ keyword ++ "\"" ++
    locationInstruction country language ++ " " ++ searchInstruction useGoogleSearch ++
    ".\n      Provide a complete and detailed study.\n      You MUST ONLY return a valid JSON object. Do not include markdown formatting like ```json.\n      The JSON object must have these exact keys:\n      - \"searchVolume\": A string describing the estimated monthly search volume (e.g., \"High (10k-100k)\", \"Medium (1k-10k)\", \"Low (100-1k)\").\n      - \"searchVolumeValue\": An integer representing the estimated average monthly search volume (e.g., for \"10k-100k\" you could return 55000).\n      - \"competition\": A string describing the SEO competition difficulty (e.g., \"High\", \"Medium\", \"Low\").\n      - \"competitionScore\": An integer from 0 (very easy) to 100 (very hard) representing SEO competition difficulty.\n      - \"alternatives\": An array of 3-5 strong alternative keywords.\n      - \"suggestedTitles\": An array of 3-5 compelling, SEO-friendly article titles.\n      - \"longTailKeywords\": An array of 3-5 related long-tail keywords that are easier to rank for.\n    "

/-- The prompt `performAnalysis` builds (src/index.tsx line 142): grounding is
requested exactly when the provider is Google AI. -/
def dispatchPrompt (provider : AIProvider) (keyword country language : String) : String :=
  createPrompt keyword country language (provider == .googleAI)

/-- A chat message of the shared HTTP request body. -/
structure ChatMessage where
  role : String
  content : String

/-- The JSON request body shared by the three HTTP providers
(src/index.tsx lines 185-189). -/
structure ChatRequestBody where
  model : String
  messages : List ChatMessage
  responseFormatType : String

/-- A fully shaped HTTP request as issued by `fetch` (src/index.tsx
lines 157-190). -/
structure HttpCall where
  endpoint : String
  method : String
  headers : List (String × String)
  body : ChatRequestBody

/-- Endpoint, model and headers per provider (the `switch` of
src/index.tsx lines 158-180) together with the common body.  The source
initializes endpoint and model to empty strings; the Google AI case never
reaches this code, so its spec keeps those initial values. -/
def buildHttpCall (provider : AIProvider) (apiKey prompt : String) : HttpCall :=
  let baseHeaders := [("Content-Type", "application/json"),
                      ("Authorization", "Bearer " ++ apiKey)]
  let (endpoint, model, headers) :=
    match provider with
    | .openAI => ("https://api.openai.com/v1/chat/completions", "gpt-4o", baseHeaders)
    | .mistral => ("https://api.mistral.ai/v1/chat/completions", "mistral-large-latest", baseHeaders)
    | .openRouter => ("https://openrouter.ai/api/v1/chat/completions", "google/gemini-flash-1.5",
        baseHeaders ++ [("HTTP-Referer", "https://keyword-analyzer.com"), ("X-Title", "Keyword Analyzer")])
    | .googleAI => ("", "", baseHeaders)
  { endpoint := endpoint
    method := "POST"
    headers := headers
    body := { model := model, messages := [⟨"user", prompt⟩], responseFormatType := "json_object" } }

/-- A web source of a grounding chunk (`uri` plus optional `title`). -/
structure WebSource where
  uri : String
  title : Option String

/-- A grounding chunk; `web` may be absent. -/
structure GroundingChunk where
  web : Option WebSource

/-- Grounding metadata of a Google AI candidate; the chunk list may be absent. -/
structure GroundingMetadata where
  groundingChunks : Option (List GroundingChunk)

/-- One candidate of a Google AI response. -/
structure Candidate where
  groundingMetadata : Option GroundingMetadata

/-- A mocked Google AI `generateContent` response. -/
structure GoogleResponse where
  text : String
  candidates : List Candidate

/-- The optional-chaining walk
`response.candidates?.[0]?.groundingMetadata?.groundingChunks`
(src/index.tsx line 153). -/
def googleSources (g : GoogleResponse) : Option (List GroundingChunk) :=
  (g.candidates.head?.bind (·.groundingMetadata)).bind (·.groundingChunks)

/-- A mocked `fetch` response for the HTTP providers: status, status text and
the raw body text.  `response.ok` is `200 ≤ status ≤ 299`; `response.json()`
is `jsonParse` of the body. -/
structure HttpResponse where
  status : Nat
  statusText : String
  body : String

/-- The Google AI client stored in the module-level `ai` variable; it retains
the credential it was constructed with. -/
structure GoogleClient where
  apiKey : String
deriving DecidableEq

/-- The module-level mutable state of src/index.tsx (lines 33-35) relevant to
the pipeline. -/
structure AppState where
  ai : Option GoogleClient
  currentProvider : Option AIProvider
  currentApiKey : Option String

/-- The error taxonomy of the dispatcher: Google client missing
(src/index.tsx line 145), non-2xx HTTP status (line 194), `response.json()`
syntax error (line 197), and the TypeError of the unguarded
`data.choices[0].message.content` access (line 198). -/
inductive DispatchError where
  | clientNotInitialized
  | providerHTTPError (provider statusText body : String)
  | jsonParseError
  | typeError
deriving DecidableEq

/-- A JavaScript value as far as the pipeline observes it: `none` is
`undefined`, `some v` a JSON value (`JSON.parse` never yields `undefined`). -/
abbrev JsVal := Option Json

/-- Lookup in a parsed JSON object: the *last* binding of a duplicated key
wins, as in `JSON.parse`. -/
def jsonLookup (fields : List (String × Json)) (key : String) : Option Json :=
  fields.reverse.lookup key

/-- JavaScript property access `v.k`: throws a TypeError on `undefined` and
`null`; looks the key up on objects; yields `undefined` on the remaining
values (primitives and arrays have none of the properties the pipeline
reads). -/
def jsGetProp (v : JsVal) (key : String) : Except Unit JsVal :=
  match v with
  | none => .error ()
  | some .null => .error ()
  | some (.obj fs) => .ok (jsonLookup fs key)
  | some _ => .ok none

/-- JavaScript index access `v[0]`: throws on `undefined`/`null`; first
element of an array (`undefined` when empty); first character of a string;
property `"0"` of an object; `undefined` otherwise. -/
def jsIndexZero (v : JsVal) : Except Unit JsVal :=
  match v with
  | none => .error ()
  | some .null => .error ()
  | some (.arr xs) => .ok xs.head?
  | some (.str s) => .ok (s.data.head?.map (fun c => Json.str ⟨[c]⟩))
  | some (.obj fs) => .ok (jsonLookup fs "0")
  | some _ => .ok none

/-- The unguarded envelope access `data.choices[0].message.content`
(src/index.tsx line 198), with JavaScript member-access semantics. -/
def jsExtractContent (data : Json) : Except Unit JsVal := do
  let choices ← jsGetProp (some data) "choices"
  let c0 ← jsIndexZero choices
  let msg ← jsGetProp c0 "message"
  jsGetProp msg "content"

/-- The normalized result of one dispatcher call (src/index.tsx lines 154 and
199): the free-text payload (which for the HTTP providers is whatever
`choices[0].message.content` held, possibly `undefined`) and the optional
grounding chunks (`null`/absent for the HTTP providers). -/
structure RawResponse where
  responseText : JsVal
  sources : Option (List GroundingChunk)

/-- One outbound network call. -/
inductive OutboundCall where
  | googleGenerate (clientApiKey model contents : String) (googleSearchTool : Bool)
  | httpPost (call : HttpCall)

/-- The full outcome of one `performAnalysis` invocation: its return value or
thrown error, the outbound calls it issued, and the module state afterwards. -/
structure DispatchResult where
  result : Except DispatchError RawResponse
  calls : List OutboundCall
  finalState : AppState

/-- Shallow embedding of `performAnalysis` (src/index.tsx lines 141-200).
The mocked provider responses are passed in; the Google AI branch throws when
the client is missing and otherwise issues one `generateContent` call with the
Google Search tool enabled; the HTTP branch issues one `fetch` of the shaped
request and then branches on the response. -/
def performAnalysis (st : AppState) (keyword country language : String)
    (provider : AIProvider) (apiKey : String)
    (google : GoogleResponse) (http : HttpResponse) : DispatchResult :=
  let prompt := dispatchPrompt provider keyword country language
  if provider = .googleAI then
    match st.ai with
    | none => ⟨.error .clientNotInitialized, [], st⟩
    | some client =>
        ⟨.ok ⟨some (.str google.text), googleSources google⟩,
         [.googleGenerate client.apiKey "gemini-2.5-flash" prompt true], st⟩
  else
    let call := buildHttpCall provider apiKey prompt
    let result : Except DispatchError RawResponse :=
      if 200 ≤ http.status ∧ http.status ≤ 299 then
        match jsonParse http.body with
        | none => .error .jsonParseError
        | some data =>
            match jsExtractContent data with
            | .error _ => .error .typeError
            | .ok content => .ok ⟨content, none⟩
      else
        .error (.providerHTTPError (providerName provider) http.statusText http.body)
    ⟨result, [.httpPost call], st⟩

/-! ## Rendering and the submit handler -/

/-- JavaScript truthiness of a JSON value: `null`, `false`, zero and the empty
string are falsy; arrays and objects are always truthy. -/
def jsTruthy : Json → Bool
  | .null => false
  | .bool b => b
  | .num m _ => m != 0
  | .str s => s ≠ ""
  | .arr _ => true
  | .obj _ => true

/-- Truthiness of a possibly-`undefined` value. -/
def jsTruthyOpt : JsVal → Bool
  | none => false
  | some v => jsTruthy v

/-- The defaulting expression `x || fallback` of the label fields
(src/index.tsx lines 360 and 367). -/
def jsOrDefault (v : JsVal) (fallback : Json) : Json :=
  match v with
  | some x => if jsTruthy x then x else fallback
  | none => fallback

/-- The Arabic "unavailable" marker rendered for a missing label. -/
def unavailableMarker : String := "غير متوفر"

/-- Destructuring a parsed JSON value for a named key (src/index.tsx
line 354): a key lookup on objects, `undefined` on other defined values.
(`null` is rejected before this function is reached.) -/
def jsDestructure (data : Json) (key : String) : JsVal :=
  match data with
  | .obj fs => jsonLookup fs key
  | _ => none

/-- The list expression `(xs || []).map(...)` (src/index.tsx lines 373, 377,
381): a falsy value is replaced by the empty list, a truthy non-array has no
`.map` and throws a TypeError. -/
def jsArrOrEmpty (v : JsVal) : Except Unit (List Json) :=
  match v with
  | none => .ok []
  | some x =>
      if jsTruthy x then
        match x with
        | .arr xs => .ok xs
        | _ => .error ()
      else .ok []

/-- The gauge threshold colouring of `renderCompetitionChart`
(src/index.tsx lines 292-299). -/
def gaugeColor (score : Int) : String :=
  if score ≤ 33 then "#34A853"
  else if score ≤ 66 then "#FBBC05"
  else "#EA4335"

/-- A rendered result card holding a label and an optional chart value
(the chart is rendered exactly when the numeric field was present). -/
structure ResultCard where
  label : Json
  chartValue : JsVal

/-- One source list entry as rendered: the link target and the display text
(`source.web.title || source.web.uri`, src/index.tsx line 398). -/
def webEntry (w : WebSource) : String × String :=
  (w.uri, if w.title.getD "" = "" then w.uri else w.title.getD "")

/-- The sources card (src/index.tsx lines 395-410): nothing for absent or
empty chunk lists; chunks without a web source contribute nothing. -/
def renderSources : Option (List GroundingChunk) → List (String × String)
  | none => []
  | some chunks =>
      if chunks.length > 0 then chunks.filterMap (fun ch => ch.web.map webEntry) else []

/-- Everything `renderResults` puts on the page. -/
structure RenderedResults where
  volume : Option ResultCard
  competition : Option ResultCard
  alternatives : List Json
  suggestedTitles : List Json
  longTailKeywords : List Json
  sources : List (String × String)

/-- Shallow embedding of `renderResults` (src/index.tsx lines 343-411).
Destructuring `null` throws a TypeError; each card is emitted only when its
numeric field is present or its label truthy; a `.map` over a truthy
non-array throws. -/
def renderResults (data : Json) (sources : Option (List GroundingChunk)) :
    Except Unit RenderedResults :=
  match data with
  | .null => .error ()
  | _ =>
    let searchVolume := jsDestructure data "searchVolume"
    let searchVolumeValue := jsDestructure data "searchVolumeValue"
    let competition := jsDestructure data "competition"
    let competitionScore := jsDestructure data "competitionScore"
    match jsArrOrEmpty (jsDestructure data "alternatives"),
          jsArrOrEmpty (jsDestructure data "suggestedTitles"),
          jsArrOrEmpty (jsDestructure data "longTailKeywords") with
    | .ok alts, .ok titles, .ok longs =>
        .ok { volume :=
                if searchVolumeValue.isSome || jsTruthyOpt searchVolume then
                  some ⟨jsOrDefault searchVolume (.str unavailableMarker), searchVolumeValue⟩
                else none
              competition :=
                if competitionScore.isSome || jsTruthyOpt competition then
                  some ⟨jsOrDefault competition (.str unavailableMarker), competitionScore⟩
                else none
              alternatives := alts
              suggestedTitles := titles
              longTailKeywords := longs
              sources := renderSources sources }
    | _, _, _ => .error ()

/-- What the submit handler leaves on the page. -/
inductive SubmitOutcome where
  | setupErrorShown (msg : String)
  | noAction
  | errorShown (msg : String)
  | resultsShown (r : RenderedResults)

/-- The localized message of the missing-setup guard (src/index.tsx line 209). -/
def setupErrorMessage : String := "يرجى إعداد مزود الخدمة ومفتاح API الخاص بك أولاً."

/-- The single localized message of the top-level catch (src/index.tsx
line 231), shown for every dispatcher or interpreter error. -/
def genericErrorMessage : String :=
  "حدث خطأ أثناء تحليل الكلمة المفتاحية. يرجى التأكد من أن الإدخال صحيح والمحاولة مرة أخرى."

/-- Characters removed by `String.prototype.trim` (the ASCII white space and
line terminators; the exotic Unicode space characters never arise here). -/
def jsIsTrimmable (c : Char) : Bool :=
  c.toNat = 32 || (9 ≤ c.toNat && c.toNat ≤ 13)

/-- Model of `String.prototype.trim`: strip leading and trailing whitespace. -/
def jsTrim (s : String) : String :=
  ⟨((s.data.dropWhile jsIsTrimmable).reverse.dropWhile jsIsTrimmable).reverse⟩

/-- Shallow embedding of the submit handler (src/index.tsx lines 206-235):
guard on configured provider/credential, trim the inputs, bail out silently on
an empty keyword, dispatch, extract-and-parse the JSON, render — with every
thrown error caught and surfaced as the one generic message. -/
def submitHandler (st : AppState) (inputValue countryValue languageValue : String)
    (google : GoogleResponse) (http : HttpResponse) : SubmitOutcome × List OutboundCall :=
  match st.currentProvider, st.currentApiKey with
  | some provider, some apiKey =>
      if apiKey = "" then (.setupErrorShown setupErrorMessage, [])
      else
        let keyword := jsTrim inputValue
        let country := jsTrim countryValue
        let language := jsTrim languageValue
        if keyword = "" then (.noAction, [])
        else
          let d := performAnalysis st keyword country language provider apiKey google http
          let outcome : SubmitOutcome :=
            match d.result with
            | .error _ => .errorShown genericErrorMessage
            | .ok raw =>
                match raw.responseText with
                | some (.str s) =>
                    match interpretResponse s with
                    | none => .errorShown genericErrorMessage
                    | some data =>
                        match renderResults data raw.sources with
                        | .error _ => .errorShown genericErrorMessage
                        | .ok r => .resultsShown r
                | _ => .errorShown genericErrorMessage
          (outcome, d.calls)
  | _, _ => (.setupErrorShown setupErrorMessage, [])

/-- Shallow embedding of `setupApplication` (src/index.tsx lines 45-77).
`userApiKey` is the key the user typed (stored in `currentApiKey`);
`envApiKey` models `process.env.API_KEY`, which is what the Google AI client
is actually constructed with (line 52). -/
def setupApplication (provider : AIProvider) (userApiKey envApiKey : String) : AppState :=
  { currentProvider := some provider
    currentApiKey := some userApiKey
    ai := if provider == .googleAI then some ⟨envApiKey⟩ else none }

/-! ## Helper lemmas -/

theorem String.ne_of_length_ne {a b : String} (h : a.length ≠ b.length) : a ≠ b :=
  fun e => h (congrArg String.length e)

/-! ## Claim theorems -/

/-- C1 (code sample): on the response text `123` followed by a lone opening
brace — a text with no closing brace — the interpreter does *not* take the
`MalformedResponse` error path: `lastIndexOf` returns -1, `substring(3, 0)`
swaps its arguments and yields the prefix `123`, `JSON.parse` succeeds with
the number 123, and the submit handler renders a (defaulted) result.  This
evaluates the code at the failing input of the claim. -/
theorem c1_no_closing_brace_still_parses :
    jsLastIndexOf "123\x7b" '\x7d' = -1 ∧
    extractJsonString "123\x7b" = "123" ∧
    interpretResponse "123\x7b" = some (.num 123 0) ∧
    (submitHandler ⟨none, some .openAI, some "k"⟩ "seo tools" "" "" ⟨"", []⟩
        ⟨200, "OK", "\x7b\"choices\":[\x7b\"message\":\x7b\"content\":\"123\x7b\"\x7d\x7d]\x7d"⟩).1
      = .resultsShown ⟨none, none, [], [], [], []⟩ :=
  ⟨rfl, rfl, rfl, rfl⟩

/-- C2: the prompt is a deterministic function of
`(keyword, country, language, groundingRequested)`; the four presence
combinations of country/language produce exactly the four distinct
`locationInstruction` phrasings, and `searchInstruction` is
"using Google Search" precisely when grounding is requested, which the
dispatcher requests precisely for the Google AI provider. -/
theorem c2_prompt_determinism (k c l : String) (hc : c ≠ "") (hl : l ≠ "")
    (p : AIProvider) (g : Bool) :
    locationInstruction c l =
        " for the target country \"" ++ c ++ "\" and language \"" ++ l ++ "\"" ∧
    locationInstruction c "" = " for the target country \"" ++ c ++ "\"" ∧
    locationInstruction "" l = " for the target language \"" ++ l ++ "\"" ∧
    locationInstruction "" "" = "" ∧
    locationInstruction c l ≠ locationInstruction c "" ∧
    locationInstruction c l ≠ locationInstruction "" l ∧
    locationInstruction c l ≠ locationInstruction "" "" ∧
    locationInstruction c "" ≠ locationInstruction "" l ∧
    locationInstruction c "" ≠ locationInstruction "" "" ∧
    locationInstruction "" l ≠ locationInstruction "" "" ∧
    (searchInstruction g = "using Google Search" ↔ g = true) ∧
    searchInstruction false = "based on your extensive knowledge" ∧
    dispatchPrompt p k c l = createPrompt k c l (p == .googleAI) ∧
    ((p == .googleAI) = true ↔ p = .googleAI) := by
  have eA : locationInstruction c l =
      " for the target country \"" ++ c ++ "\" and language \"" ++ l ++ "\"" := by
    simp [locationInstruction, hc, hl]
  have eB : locationInstruction c "" = " for the target country \"" ++ c ++ "\"" := by
    simp [locationInstruction, hc]
  have eC : locationInstruction "" l = " for the target language \"" ++ l ++ "\"" := by
    simp [locationInstruction, hl]
  have eD : locationInstruction "" "" = "" := by simp [locationInstruction]
  have l25 : (" for the target country \"" : String).length = 25 := rfl
  have l26 : (" for the target language \"" : String).length = 26 := rfl
  have l16 : ("\" and language \"" : String).length = 16 := rfl
  have l1 : ("\"" : String).length = 1 := rfl
  have l0 : ("" : String).length = 0 := rfl
  refine ⟨eA, eB, eC, eD, ?q1, ?q2, ?q3, ?q4, ?q5, ?q6, ?q7, ?q8, rfl, ?q9⟩
  · rw [eA, eB]
    apply String.ne_of_length_ne
    simp only [String.length_append]
    omega
  · rw [eA, eC]
    apply String.ne_of_length_ne
    simp only [String.length_append]
    omega
  · rw [eA, eD]
    apply String.ne_of_length_ne
    simp only [String.length_append]
    omega
  · rw [eB, eC]
    intro h
    have hd := congrArg String.data h
    rw [String.data_append, String.data_append, String.data_append, String.data_append] at hd
    rw [List.append_assoc, List.append_assoc] at hd
    have ht := congrArg (List.take 17) hd
    rw [List.take_append_of_le_length (by decide),
        List.take_append_of_le_length (by decide)] at ht
    exact absurd ht (by decide)
  · rw [eB, eD]
    apply String.ne_of_length_ne
    simp only [String.length_append]
    omega
  · rw [eC, eD]
    apply String.ne_of_length_ne
    simp only [String.length_append]
    omega
  · cases g <;> simp [searchInstruction]
  · rfl
  · cases p <;> decide

/-- C2 witness: the theorem applied at concrete nonempty country and
language. -/
theorem c2_prompt_determinism_witness :
    locationInstruction "Germany" "English" =
      " for the target country \"Germany\" and language \"English\"" :=
  (c2_prompt_determinism "seo" "Germany" "English" (by decide) (by decide) .openAI true).1

/-- C3: each of the three non-grounding providers issues one POST to its
fixed endpoint with the JSON content type and bearer-credential headers and
the shared `model`/`messages`/`response_format` body, with the fixed
per-provider model; for OpenAI with empty country and language the prompt
has the empty location phrase and the "extensive knowledge" phrasing. -/
theorem c3_http_dispatch_shape (st : AppState) (k c l apiKey : String)
    (g : GoogleResponse) (h : HttpResponse) :
    (performAnalysis st k c l .openAI apiKey g h).calls =
      [.httpPost ⟨"https://api.openai.com/v1/chat/completions", "POST",
        [("Content-Type", "application/json"), ("Authorization", "Bearer " ++ apiKey)],
        ⟨"gpt-4o", [⟨"user", createPrompt k c l false⟩], "json_object"⟩⟩] ∧
    (performAnalysis st k c l .mistral apiKey g h).calls =
      [.httpPost ⟨"https://api.mistral.ai/v1/chat/completions", "POST",
        [("Content-Type", "application/json"), ("Authorization", "Bearer " ++ apiKey)],
        ⟨"mistral-large-latest", [⟨"user", createPrompt k c l false⟩], "json_object"⟩⟩] ∧
    (performAnalysis st k c l .openRouter apiKey g h).calls =
      [.httpPost ⟨"https://openrouter.ai/api/v1/chat/completions", "POST",
        [("Content-Type", "application/json"), ("Authorization", "Bearer " ++ apiKey),
         ("HTTP-Referer", "https://keyword-analyzer.com"), ("X-Title", "Keyword Analyzer")],
        ⟨"google/gemini-flash-1.5", [⟨"user", createPrompt k c l false⟩], "json_object"⟩⟩] ∧
    dispatchPrompt .openAI k "" "" = createPrompt k "" "" false ∧
    locationInstruction "" "" = "" ∧
    searchInstruction false = "based on your extensive knowledge" :=
  ⟨rfl, rfl, rfl, rfl, rfl, rfl⟩

/-- C8 counterexample: setting up with provider Google AI and user key
`user-key` under environment key `env-key` does *not* construct the client
with the user-provided credential. -/
theorem c8_counterexample :
    (setupApplication .googleAI "user-key" "env-key").ai ≠ some ⟨"user-key"⟩ := by
  decide

/-- C8 (amended): setup with Google AI selected constructs the client with
the environment credential `process.env.API_KEY`, stores the user-provided
key as the session credential, and subsequent grounded dispatches issue their
single `generateContent` call through that client (so with the environment
credential). -/
theorem c8_setup_client_credential (u e k c l key2 : String)
    (g : GoogleResponse) (h : HttpResponse) :
    setupApplication .googleAI u e = ⟨some ⟨e⟩, some .googleAI, some u⟩ ∧
    (performAnalysis (setupApplication .googleAI u e) k c l .googleAI key2 g h).calls =
      [.googleGenerate e "gemini-2.5-flash" (dispatchPrompt .googleAI k c l) true] ∧
    (performAnalysis (setupApplication .googleAI u e) k c l .googleAI key2 g h).result =
      .ok ⟨some (.str g.text), googleSources g⟩ :=
  ⟨rfl, rfl, rfl⟩

/-- C9: the competition gauge colour is fixed by thresholds on the score:
at most 33 is green, between 34 and 66 is yellow, above 66 is red; in
particular 75 is red, 50 yellow, 20 green. -/
theorem c9_gauge_thresholds (score : Int) :
    (score ≤ 33 → gaugeColor score = "#34A853") ∧
    (33 < score → score ≤ 66 → gaugeColor score = "#FBBC05") ∧
    (66 < score → gaugeColor score = "#EA4335") ∧
    gaugeColor 75 = "#EA4335" ∧ gaugeColor 50 = "#FBBC05" ∧ gaugeColor 20 = "#34A853" := by
  refine ⟨fun h => ?_, fun h1 h2 => ?_, fun h => ?_, by decide, by decide, by decide⟩
  · rw [gaugeColor, if_pos h]
  · rw [gaugeColor, if_neg (by omega), if_pos h2]
  · rw [gaugeColor, if_neg (by omega), if_neg (by omega)]

/-- C9 witness: the theorem applied at the concrete scores of the claim. -/
theorem c9_gauge_thresholds_witness :
    gaugeColor 75 = "#EA4335" ∧ gaugeColor 50 = "#FBBC05" ∧ gaugeColor 20 = "#34A853" :=
  ⟨(c9_gauge_thresholds 75).2.2.1 (by decide),
   (c9_gauge_thresholds 50).2.1 (by decide) (by decide),
   (c9_gauge_thresholds 20).1 (by decide)⟩

/-- C4 counterexample: with the Google AI provider selected but no
initialized client, a dispatcher invocation with the non-empty keyword
`seo tools` issues zero outbound calls — not exactly one — throwing
`ClientNotInitialized` instead. -/
theorem c4_counterexample :
    (performAnalysis ⟨none, some .googleAI, some "key"⟩ "seo tools" "" "" .googleAI "key"
        ⟨"", []⟩ ⟨200, "OK", ""⟩).calls.length ≠ 1 ∧
    (performAnalysis ⟨none, some .googleAI, some "key"⟩ "seo tools" "" "" .googleAI "key"
        ⟨"", []⟩ ⟨200, "OK", ""⟩).calls = [] ∧
    (performAnalysis ⟨none, some .googleAI, some "key"⟩ "seo tools" "" "" .googleAI "key"
        ⟨"", []⟩ ⟨200, "OK", ""⟩).result = .error .clientNotInitialized :=
  ⟨by decide, rfl, rfl⟩

/-- C4 (amended): a dispatcher invocation mutates no module state and issues
exactly one outbound call for the three HTTP providers unconditionally, and
for Google AI whenever the client is initialized; with Google AI selected and
no client it issues zero calls and throws `ClientNotInitialized`; a
submission whose trimmed keyword is empty issues no outbound call. -/
theorem c4_single_call_no_mutation (st : AppState) (k c l : String) (p : AIProvider)
    (key : String) (g : GoogleResponse) (h : HttpResponse) (hk : k ≠ "") :
    (performAnalysis st k c l p key g h).finalState = st ∧
    (p ≠ .googleAI → (performAnalysis st k c l p key g h).calls.length = 1) ∧
    (p = .googleAI → st.ai.isSome → (performAnalysis st k c l p key g h).calls.length = 1) ∧
    (p = .googleAI → st.ai = none →
      (performAnalysis st k c l p key g h).calls = [] ∧
      (performAnalysis st k c l p key g h).result = .error .clientNotInitialized) ∧
    (∀ iv cv lv, jsTrim iv = "" → (submitHandler st iv cv lv g h).2 = []) := by
  obtain ⟨oai, oprov, okey⟩ := st
  refine ⟨?s1, ?s2, ?s3, ?s4, ?s5⟩
  · cases p <;> cases oai <;> rfl
  · intro hp
    cases p
    · exact absurd rfl hp
    all_goals rfl
  · intro hp hsome
    subst hp
    cases oai with
    | none => simp at hsome
    | some client => rfl
  · intro hp hnone
    subst hp
    have : oai = none := hnone
    subst this
    exact ⟨rfl, rfl⟩
  · intro iv cv lv hiv
    cases oprov <;> cases okey
    · rfl
    · rfl
    · rfl
    · simp only [submitHandler, hiv]
      split <;> rfl

/-- C4 witness: the amended theorem applied at a concrete request with a
non-empty keyword and an HTTP provider. -/
theorem c4_single_call_no_mutation_witness :
    (performAnalysis ⟨none, some .openAI, some "k"⟩ "seo" "" "" .openAI "k"
        ⟨"", []⟩ ⟨200, "OK", ""⟩).calls.length = 1 :=
  (c4_single_call_no_mutation ⟨none, some .openAI, some "k"⟩ "seo" "" "" .openAI "k"
      ⟨"", []⟩ ⟨200, "OK", ""⟩ (by decide)).2.1 (by decide)

/-- C5: only the Google AI provider ever yields citations: the three HTTP
providers return an absent source list no matter what the response contains,
which renders as no citations; the Google AI path passes the grounding
chunks through, and rendering keeps exactly the chunks that carry a web
source (chunks without one are dropped). -/
theorem c5_citations_only_grounding (st : AppState) (k c l key : String)
    (g : GoogleResponse) (h : HttpResponse) (p : AIProvider) (hp : p ≠ .googleAI)
    (client : GoogleClient) (hai : st.ai = some client) :
    (∀ raw, (performAnalysis st k c l p key g h).result = .ok raw →
      raw.sources = none ∧ renderSources raw.sources = []) ∧
    (performAnalysis st k c l .googleAI key g h).result =
      .ok ⟨some (.str g.text), googleSources g⟩ ∧
    (∀ chunks, renderSources (some chunks) =
      chunks.filterMap (fun ch => ch.web.map webEntry)) ∧
    (∀ chunks, (∀ ch ∈ chunks, ch.web = none) → renderSources (some chunks) = []) := by
  have hfm : ∀ chunks, renderSources (some chunks) =
      chunks.filterMap (fun ch => ch.web.map webEntry) := by
    intro chunks
    cases chunks <;> simp [renderSources]
  refine ⟨?u1, ?u2, hfm, ?u3⟩
  · intro raw hr
    cases p
    · exact absurd rfl hp
    all_goals
      simp only [performAnalysis] at hr
      split at hr
      · rename_i hcond
        exact absurd hcond (by decide)
      · split at hr
        · split at hr
          · simp at hr
          · split at hr
            · simp at hr
            · cases hr
              exact ⟨rfl, rfl⟩
        · simp at hr
  · simp [performAnalysis, hai]
  · intro chunks hall
    rw [hfm]
    rw [List.filterMap_eq_nil_iff]
    intro ch hch
    rw [hall ch hch]
    rfl

/-- C5 witness: the theorem applied with a concrete non-Google provider and
a concrete initialized state, and a chunk list whose only chunk lacks a web
source. -/
theorem c5_citations_only_grounding_witness :
    (∀ raw, (performAnalysis ⟨some ⟨"e"⟩, some .mistral, some "k"⟩ "seo" "" "" .mistral "k"
        ⟨"t", []⟩ ⟨200, "OK", "\x7b\x7d"⟩).result = .ok raw →
      raw.sources = none ∧ renderSources raw.sources = []) ∧
    renderSources (some [⟨none⟩]) = [] := by
  have full := c5_citations_only_grounding ⟨some ⟨"e"⟩, some .mistral, some "k"⟩ "seo" "" "" "k"
      ⟨"t", []⟩ ⟨200, "OK", "\x7b\x7d"⟩ .mistral (by decide) ⟨"e"⟩ rfl
  exact ⟨full.1, full.2.2.2 [⟨none⟩] (by simp)⟩

/-- Helper: with setup present, a non-empty trimmed keyword and a dispatch
that throws, the submit handler shows the one generic message. -/
theorem submit_error_shows_generic (oai : Option GoogleClient) (p : AIProvider)
    (key iv cv lv : String) (g : GoogleResponse) (h : HttpResponse) (e : DispatchError)
    (hkey : key ≠ "") (hiv : jsTrim iv ≠ "")
    (hres : (performAnalysis ⟨oai, some p, some key⟩ (jsTrim iv) (jsTrim cv) (jsTrim lv)
        p key g h).result = .error e) :
    (submitHandler ⟨oai, some p, some key⟩ iv cv lv g h).1 =
      .errorShown genericErrorMessage := by
  simp only [submitHandler]
  rw [if_neg hkey, if_neg hiv]
  simp only [hres]

/-- Helper: with setup present, a non-empty trimmed keyword and a dispatch
that returns, the submit handler's outcome is fixed by the raw response. -/
theorem submit_ok_outcome (oai : Option GoogleClient) (p : AIProvider)
    (key iv cv lv : String) (g : GoogleResponse) (h : HttpResponse) (raw : RawResponse)
    (hkey : key ≠ "") (hiv : jsTrim iv ≠ "")
    (hres : (performAnalysis ⟨oai, some p, some key⟩ (jsTrim iv) (jsTrim cv) (jsTrim lv)
        p key g h).result = .ok raw) :
    (submitHandler ⟨oai, some p, some key⟩ iv cv lv g h).1 =
      (match raw.responseText with
       | some (.str s) =>
           match interpretResponse s with
           | none => .errorShown genericErrorMessage
           | some data =>
               match renderResults data raw.sources with
               | .error _ => .errorShown genericErrorMessage
               | .ok r => .resultsShown r
       | _ => .errorShown genericErrorMessage) := by
  simp only [submitHandler]
  rw [if_neg hkey, if_neg hiv]
  simp only [hres]

/-- C7: a non-2xx HTTP status makes the dispatcher throw a provider error
carrying the status text and the response body, still having issued exactly
one call (no retry); and — for any provider and any response whatsoever —
every dispatcher error and every interpreter failure is caught by the submit
handler and surfaced as the single generic localized message, with no
per-kind differentiation. -/
theorem c7_provider_http_error (k c l key : String) (g : GoogleResponse) (h : HttpResponse)
    (p : AIProvider) (oai : Option GoogleClient) (hp : p ≠ .googleAI) (hkey : key ≠ "")
    (hstatus : ¬(200 ≤ h.status ∧ h.status ≤ 299)) :
    (performAnalysis ⟨oai, some p, some key⟩ k c l p key g h).result =
      .error (.providerHTTPError (providerName p) h.statusText h.body) ∧
    (performAnalysis ⟨oai, some p, some key⟩ k c l p key g h).calls.length = 1 ∧
    (∀ (h2 : HttpResponse) (p2 : AIProvider) iv cv lv e, jsTrim iv ≠ "" →
      (performAnalysis ⟨oai, some p2, some key⟩ (jsTrim iv) (jsTrim cv) (jsTrim lv)
          p2 key g h2).result = .error e →
      (submitHandler ⟨oai, some p2, some key⟩ iv cv lv g h2).1 =
        .errorShown genericErrorMessage) ∧
    (∀ (h2 : HttpResponse) (p2 : AIProvider) iv cv lv s raw, jsTrim iv ≠ "" →
      (performAnalysis ⟨oai, some p2, some key⟩ (jsTrim iv) (jsTrim cv) (jsTrim lv)
          p2 key g h2).result = .ok raw →
      raw.responseText = some (.str s) → interpretResponse s = none →
      (submitHandler ⟨oai, some p2, some key⟩ iv cv lv g h2).1 =
        .errorShown genericErrorMessage) := by
  refine ⟨?v1, ?v2, ?v3, ?v4⟩
  · simp [performAnalysis, hp, hstatus]
  · simp [performAnalysis, hp]
  · intro h2 p2 iv cv lv e hiv hres
    exact submit_error_shows_generic oai p2 key iv cv lv g h2 e hkey hiv hres
  · intro h2 p2 iv cv lv s raw hiv hres hrt hint
    rw [submit_ok_outcome oai p2 key iv cv lv g h2 raw hkey hiv hres]
    rw [hrt]
    simp only [hint]

/-- C7 witness: the theorem applied concretely three ways — a 503 response
throwing the provider error; a 2xx response with a non-JSON body, whose
`jsonParseError` surfaces as the generic message; and a 2xx response whose
content text has no braces, whose interpreter failure surfaces as the same
generic message. -/
theorem c7_provider_http_error_witness :
    (performAnalysis ⟨none, some .openRouter, some "k"⟩ "seo" "" "" .openRouter "k"
        ⟨"", []⟩ ⟨503, "Service Unavailable", "overloaded"⟩).result =
      .error (.providerHTTPError "OpenRouter" "Service Unavailable" "overloaded") ∧
    (submitHandler ⟨none, some .openRouter, some "k"⟩ "seo" "" "" ⟨"", []⟩
        ⟨200, "OK", "oops"⟩).1 = .errorShown genericErrorMessage ∧
    (submitHandler ⟨none, some .openRouter, some "k"⟩ "seo" "" "" ⟨"", []⟩
        ⟨200, "OK",
         "\x7b\"choices\":[\x7b\"message\":\x7b\"content\":\"no braces\"\x7d\x7d]\x7d"⟩).1 =
      .errorShown genericErrorMessage := by
  have full := c7_provider_http_error "seo" "" "" "k" ⟨"", []⟩
      ⟨503, "Service Unavailable", "overloaded"⟩ .openRouter none
      (by decide) (by decide) (by decide)
  refine ⟨full.1, ?_, ?_⟩
  · exact full.2.2.1 ⟨200, "OK", "oops"⟩ .openRouter "seo" "" "" .jsonParseError
      (by decide) rfl
  · exact full.2.2.2
      ⟨200, "OK",
       "\x7b\"choices\":[\x7b\"message\":\x7b\"content\":\"no braces\"\x7d\x7d]\x7d"⟩
      .openRouter "seo" "" "" "no braces" ⟨some (.str "no braces"), none⟩
      (by decide) rfl rfl rfl

/-- C10 counterexample: a 2xx response whose JSON body parses but whose
`choices[0].message` object lacks the `content` key does *not* make
`performAnalysis` throw — it returns a `RawProviderResponse` whose text is
`undefined`. -/
theorem c10_counterexample :
    (performAnalysis ⟨none, some .openAI, some "key"⟩ "seo" "" "" .openAI "key" ⟨"", []⟩
        ⟨200, "OK", "\x7b\"choices\":[\x7b\"message\":\x7b\x7d\x7d]\x7d"⟩).result =
      .ok ⟨none, none⟩ :=
  rfl

/-- C10 (amended): for a 2xx response of an HTTP provider, a non-JSON body
makes `performAnalysis` throw from `response.json()`, and a JSON body whose
envelope access `choices[0].message.content` throws makes it throw a
TypeError; when `choices[0].message` exists but `content` is absent,
`performAnalysis` instead returns an `undefined` text and the submit handler
throws when extracting JSON from it.  In every one of these cases the
top-level handler catches the exception and renders the generic error
message, so no partial result is rendered. -/
theorem c10_envelope_failures (oai : Option GoogleClient) (p : AIProvider)
    (key k c l : String) (g : GoogleResponse) (h : HttpResponse)
    (hp : p ≠ .googleAI) (hkey : key ≠ "")
    (hstatus : 200 ≤ h.status ∧ h.status ≤ 299) :
    (jsonParse h.body = none →
      (performAnalysis ⟨oai, some p, some key⟩ k c l p key g h).result =
        .error .jsonParseError) ∧
    (∀ data, jsonParse h.body = some data → jsExtractContent data = .error () →
      (performAnalysis ⟨oai, some p, some key⟩ k c l p key g h).result =
        .error .typeError) ∧
    (∀ data, jsonParse h.body = some data → jsExtractContent data = .ok none →
      (performAnalysis ⟨oai, some p, some key⟩ k c l p key g h).result =
        .ok ⟨none, none⟩) ∧
    (∀ iv cv lv, jsTrim iv ≠ "" →
      (jsonParse h.body = none ∨
        (∃ data, jsonParse h.body = some data ∧
          (jsExtractContent data = .error () ∨ jsExtractContent data = .ok none))) →
      (submitHandler ⟨oai, some p, some key⟩ iv cv lv g h).1 =
        .errorShown genericErrorMessage) := by
  have hres : ∀ k2 c2 l2,
      (performAnalysis ⟨oai, some p, some key⟩ k2 c2 l2 p key g h).result =
        (match jsonParse h.body with
         | none => .error .jsonParseError
         | some data =>
             match jsExtractContent data with
             | .error _ => .error .typeError
             | .ok content => .ok ⟨content, none⟩) := by
    intro k2 c2 l2
    simp [performAnalysis, hp, hstatus]
  refine ⟨?w1, ?w2, ?w3, ?w4⟩
  · intro hparse
    rw [hres, hparse]
  · intro data hparse hext
    rw [hres, hparse]
    simp only [hext]
  · intro data hparse hext
    rw [hres, hparse]
    simp only [hext]
  · intro iv cv lv hiv hcase
    rcases hcase with hparse | ⟨data, hparse, hext | hext⟩
    · exact submit_error_shows_generic oai p key iv cv lv g h .jsonParseError hkey hiv
        (by rw [hres, hparse])
    · exact submit_error_shows_generic oai p key iv cv lv g h .typeError hkey hiv
        (by rw [hres, hparse]; simp only [hext])
    · rw [submit_ok_outcome oai p key iv cv lv g h ⟨none, none⟩ hkey hiv
        (by rw [hres, hparse]; simp only [hext])]

/-- C10 witness: the amended theorem applied at a concrete non-JSON 200
response. -/
theorem c10_envelope_failures_witness :
    (performAnalysis ⟨none, some .mistral, some "key"⟩ "kw" "" "" .mistral "key" ⟨"", []⟩
        ⟨200, "OK", "not json"⟩).result = .error .jsonParseError :=
  (c10_envelope_failures none .mistral "key" "kw" "" "" ⟨"", []⟩ ⟨200, "OK", "not json"⟩
      (by decide) (by decide) (by decide)).1 rfl

/-- C6: a parsed JSON object with any subset of the seven expected keys is
read permissively with the documented defaults: the rendered result's array
sequences are empty when their keys are missing, each card's chart value is
exactly the looked-up numeric field (absent when the key is missing, so the
chart is omitted), each card's label is the `x || marker` default — the
Arabic "unavailable" marker when the label key is missing — and a card with
both of its fields missing is omitted.  The claim's example — raw text with
prose and markdown fencing around an object holding only `searchVolume` and
`searchVolumeValue` — interprets to exactly those two fields populated and
everything else at its default. -/
theorem c6_permissive_read (fs : List (String × Json)) (srcs : Option (List GroundingChunk))
    (xsA xsT xsL : List Json)
    (hA : jsArrOrEmpty (jsonLookup fs "alternatives") = .ok xsA)
    (hT : jsArrOrEmpty (jsonLookup fs "suggestedTitles") = .ok xsT)
    (hL : jsArrOrEmpty (jsonLookup fs "longTailKeywords") = .ok xsL) :
    renderResults (.obj fs) srcs = .ok
      { volume :=
          if (jsonLookup fs "searchVolumeValue").isSome
              || jsTruthyOpt (jsonLookup fs "searchVolume") then
            some ⟨jsOrDefault (jsonLookup fs "searchVolume") (.str unavailableMarker),
                  jsonLookup fs "searchVolumeValue"⟩
          else none
        competition :=
          if (jsonLookup fs "competitionScore").isSome
              || jsTruthyOpt (jsonLookup fs "competition") then
            some ⟨jsOrDefault (jsonLookup fs "competition") (.str unavailableMarker),
                  jsonLookup fs "competitionScore"⟩
          else none
        alternatives := xsA
        suggestedTitles := xsT
        longTailKeywords := xsL
        sources := renderSources srcs } ∧
    (jsonLookup fs "alternatives" = none → xsA = []) ∧
    (jsonLookup fs "suggestedTitles" = none → xsT = []) ∧
    (jsonLookup fs "longTailKeywords" = none → xsL = []) ∧
    (jsonLookup fs "searchVolume" = none →
      jsOrDefault (jsonLookup fs "searchVolume") (.str unavailableMarker) =
        .str unavailableMarker) ∧
    (jsonLookup fs "competition" = none →
      jsOrDefault (jsonLookup fs "competition") (.str unavailableMarker) =
        .str unavailableMarker) ∧
    (jsonLookup fs "searchVolumeValue" = none → jsonLookup fs "searchVolume" = none →
      (if (jsonLookup fs "searchVolumeValue").isSome
          || jsTruthyOpt (jsonLookup fs "searchVolume") then
        some (⟨jsOrDefault (jsonLookup fs "searchVolume") (.str unavailableMarker),
               jsonLookup fs "searchVolumeValue"⟩ : ResultCard)
      else none) = none) ∧
    (jsonLookup fs "competitionScore" = none → jsonLookup fs "competition" = none →
      (if (jsonLookup fs "competitionScore").isSome
          || jsTruthyOpt (jsonLookup fs "competition") then
        some (⟨jsOrDefault (jsonLookup fs "competition") (.str unavailableMarker),
               jsonLookup fs "competitionScore"⟩ : ResultCard)
      else none) = none) ∧
    interpretResponse
        "Sure! ```json\n\x7b\"searchVolume\":\"High\",\"searchVolumeValue\":5000\x7d\n```" =
      some (.obj [("searchVolume", .str "High"), ("searchVolumeValue", .num 5000 0)]) ∧
    renderResults (.obj [("searchVolume", .str "High"), ("searchVolumeValue", .num 5000 0)])
        none =
      .ok ⟨some ⟨.str "High", some (.num 5000 0)⟩, none, [], [], [], []⟩ := by
  refine ⟨?e1, ?e2, ?e3, ?e4, ?e5, ?e6, ?e7, ?e8, rfl, rfl⟩
  · simp only [renderResults, jsDestructure]
    rw [hA, hT, hL]
  · intro h0
    rw [h0] at hA
    simp [jsArrOrEmpty] at hA
    simp [hA]
  · intro h0
    rw [h0] at hT
    simp [jsArrOrEmpty] at hT
    simp [hT]
  · intro h0
    rw [h0] at hL
    simp [jsArrOrEmpty] at hL
    simp [hL]
  · intro h0
    simp [h0, jsOrDefault]
  · intro h0
    simp [h0, jsOrDefault]
  · intro h1 h2
    simp [h1, h2, jsTruthyOpt]
  · intro h1 h2
    simp [h1, h2, jsTruthyOpt]

/-- C6 witness: the theorem applied at the object of the claim's example,
discharging the three array-field hypotheses (all three keys absent). -/
theorem c6_permissive_read_witness :
    renderResults
        (.obj [("searchVolume", Json.str "High"), ("searchVolumeValue", Json.num 5000 0)])
        none = .ok
      { volume := some ⟨Json.str "High", some (Json.num 5000 0)⟩
        competition := none
        alternatives := []
        suggestedTitles := []
        longTailKeywords := []
        sources := [] } := by
  have full :=
    c6_permissive_read
      [("searchVolume", Json.str "High"), ("searchVolumeValue", Json.num 5000 0)]
      none [] [] [] rfl rfl rfl
  exact full.2.2.2.2.2.2.2.2.2
